import Mathlib

/-!
Shallow embedding of `src/generate_graphs.py`.

The script loads a JSON document (`spike_results.json`), flattens it with
`extract_performance_data` into overall statistics and per-endpoint latency
statistics, and renders charts plus a console summary.  We model the JSON
values the script manipulates (numbers and objects), Python dictionary
operations (`d.get(k, default)`, `d[k]`, insertion-ordered assignment),
Python truthiness, and the string operations `str.startswith` / `str.replace`
used on metric names.  Numbers are modelled as rationals.  Exceptions that
CPython would raise (`KeyError` on a bare subscript, `AttributeError` when
`.get`/`.items` is called on a non-dict, `TypeError` when dividing a dict)
are modelled in an error monad `PyM`.
-/

namespace GenerateGraphs

/-- JSON-like values the extractor manipulates: numbers and objects.  An
object is an insertion-ordered association list of fields, mirroring a Python
dict (whose keys are unique and iterate in insertion order). -/
inductive Json where
  | num (q : Rat)
  | obj (fields : List (String × Json))

abbrev Fields := List (String × Json)

/-- Exceptions the embedded fragment can raise. -/
inductive PyErr where
  | keyError (key : String)
  | attributeError (msg : String)
  | typeError (msg : String)

abbrev PyM (α : Type) := Except PyErr α

/-- Python truthiness (`if not data:` on line 24, `if values:` on line 40):
the number `0` and the empty dict are falsy. -/
def truthy : Json → Bool
  | .num q => decide (q ≠ 0)
  | .obj fs => !fs.isEmpty

/-- First-match lookup in an association list.  Python dict keys are unique,
so the first match is the dict lookup. -/
def objLookup (fs : Fields) (k : String) : Option Json :=
  (fs.find? (fun p => p.1 == k)).map (fun p => p.2)

/-- `d.get(k, dflt)` on a value already known to be a dict. -/
def objGetD (fs : Fields) (k : String) (dflt : Json) : Json :=
  (objLookup fs k).getD dflt

/-- View a value as a dict, as CPython does before an attribute access:
`x.get(...)` and `x.items()` raise `AttributeError` when `x` is not a dict. -/
def Json.asObj : Json → PyM Fields
  | .obj fs => .ok fs
  | .num _ => .error (.attributeError "no attribute")

/-- View a value as a number, as the division on line 63 does: dividing a
dict by an int raises `TypeError`. -/
def Json.asNum : Json → PyM Rat
  | .num q => .ok q
  | .obj _ => .error (.typeError "unsupported operand")

def Json.isObj : Json → Bool
  | .obj _ => true
  | .num _ => false

def Json.isNum : Json → Bool
  | .num _ => true
  | .obj _ => false

/-- The fields of an object (empty for a number). -/
def fieldsD : Json → Fields
  | .obj fs => fs
  | .num _ => []

/-- The rational of a number (`0` for an object). -/
def numD : Json → Rat
  | .num q => q
  | .obj _ => 0

/-- Python `x[k]`: raises `KeyError` when the key is missing.  The extractor
never uses this operation — every access on lines 27–69 goes through `.get`
with an explicit default. -/
def pyGetItem (x : Json) (k : String) : PyM Json := do
  let fs ← x.asObj
  match objLookup fs k with
  | some v => .ok v
  | none => .error (.keyError k)

/-- Python `x.get(k, dflt)`. -/
def pyGet (x : Json) (k : String) (dflt : Json) : PyM Json := do
  let fs ← x.asObj
  .ok (objGetD fs k dflt)

/-- `metrics.get(name, {}).get('values', {})` (lines 28–32). -/
def metricValues (metrics : Json) (name : String) : PyM Json := do
  let entry ← pyGet metrics name (.obj [])
  pyGet entry "values" (.obj [])

/-- One pass of CPython `str.replace` with a non-empty pattern: scan left to
right, replacing non-overlapping occurrences.  `fuel` bounds the scan; it is
initialised to the length of the scanned string, which the scan never exceeds
when the pattern is non-empty (each step consumes at least one character). -/
def replaceGo (pat sub : List Char) : Nat → List Char → List Char
  | 0, s => s
  | fuel+1, s =>
    match s with
    | [] => []
    | c :: rest =>
      if pat.isPrefixOf s then sub ++ replaceGo pat sub fuel (s.drop pat.length)
      else c :: replaceGo pat sub fuel rest

/-- Python `s.replace(pat, sub)`, for the non-empty pattern `'latency_ms_'`
used on line 38.  Note CPython's `replace` replaces every occurrence, not
just a leading one. -/
def pyReplace (s pat sub : String) : String :=
  ⟨replaceGo pat.data sub.data s.data.length s.data⟩

/-- Python `s.startswith(p)` (line 37). -/
def pyStartsWith (s p : String) : Bool :=
  p.data.isPrefixOf s.data

/-- The per-endpoint record built on lines 41–49. -/
structure EndpointRecord where
  avg : Json
  min : Json
  med : Json
  p90 : Json
  p95 : Json
  p99 : Json
  max : Json

/-- Lines 42–48: the seven fields, each read with default `0`. -/
def recordOfValues (vf : Fields) : EndpointRecord :=
  { avg := objGetD vf "avg" (.num 0)
    min := objGetD vf "min" (.num 0)
    med := objGetD vf "med" (.num 0)
    p90 := objGetD vf "p(90)" (.num 0)
    p95 := objGetD vf "p(95)" (.num 0)
    p99 := objGetD vf "p(99)" (.num 0)
    max := objGetD vf "max" (.num 0) }

/-- Python dict assignment `d[k] = v`: overwrite the (unique) occurrence of
the key in place when present, keeping its position, otherwise append at the
end. -/
def dictInsert {α : Type} : List (String × α) → String → α → List (String × α)
  | [], k, v => [(k, v)]
  | p :: t, k, v => if p.1 == k then (k, v) :: t else p :: dictInsert t k v

/-- Dict lookup in an insertion-ordered association list, for the
`endpoint_metrics` dict. -/
def assocLookup {α : Type} (d : List (String × α)) (k : String) : Option α :=
  (d.find? (fun p => p.1 == k)).map (fun p => p.2)

/-- The body of one iteration of the loop on lines 36–49: `none` when the
metric is skipped, otherwise the key/record pair assigned into
`endpoint_metrics`. -/
def endpointContrib (p : String × Json) : PyM (Option (String × EndpointRecord)) :=
  if pyStartsWith p.1 "latency_ms_" then do
    let values ← pyGet p.2 "values" (.obj [])
    if truthy values then do
      let vf ← values.asObj
      .ok (some (pyReplace p.1 "latency_ms_" "", recordOfValues vf))
    else .ok none
  else .ok none

/-- The loop on lines 36–49 over `metrics.items()`, accumulating the
`endpoint_metrics` dict. -/
def loopEndpoints : List (String × Json) → List (String × EndpointRecord) →
    PyM (List (String × EndpointRecord))
  | [], acc => .ok acc
  | p :: rest, acc =>
    endpointContrib p >>= fun c =>
      match c with
      | none => loopEndpoints rest acc
      | some (k, v) => loopEndpoints rest (dictInsert acc k v)

/-- The `'overall'` record built on lines 52–70. -/
structure OverallStats where
  p50 : Json
  p90 : Json
  p95 : Json
  p99 : Json
  avg : Json
  min : Json
  max : Json
  total_requests : Json
  requests_per_sec : Json
  error_rate : Json
  duration_s : Json
  vus : Json
  vus_max : Json
  checks_pass_rate : Json
  checks_total : Json
  checks_passed : Json
  checks_failed : Json

/-- The pair returned on lines 51–72. -/
structure ExtractResult where
  overall : OverallStats
  endpoints : List (String × EndpointRecord)

/-- `extract_performance_data` (lines 22–72).  The argument is `None` or the
loaded JSON document; `if not data: return None` (line 24) catches both
`None` and falsy (for a dict: empty) input. -/
def extract_performance_data (data : Option Json) : PyM (Option ExtractResult) :=
  match data with
  | none => .ok none
  | some d =>
    if truthy d then
      pyGet d "metrics" (.obj []) >>= fun metrics =>
      metricValues metrics "http_req_duration" >>= fun http_duration =>
      metricValues metrics "http_reqs" >>= fun http_reqs =>
      metricValues metrics "http_req_failed" >>= fun http_failed =>
      metricValues metrics "vus" >>= fun vusValues =>
      metricValues metrics "checks" >>= fun checksValues =>
      metrics.asObj >>= fun mitems =>
      loopEndpoints mitems [] >>= fun endpoint_metrics =>
      pyGet http_duration "med" (.num 0) >>= fun p50v =>
      pyGet http_duration "p(90)" (.num 0) >>= fun p90v =>
      pyGet http_duration "p(95)" (.num 0) >>= fun p95v =>
      pyGet http_duration "p(99)" (.num 0) >>= fun p99v =>
      pyGet http_duration "avg" (.num 0) >>= fun avgv =>
      pyGet http_duration "min" (.num 0) >>= fun minv =>
      pyGet http_duration "max" (.num 0) >>= fun maxv =>
      pyGet http_reqs "count" (.num 0) >>= fun totalv =>
      pyGet http_reqs "rate" (.num 0) >>= fun ratev =>
      pyGet http_failed "rate" (.num 0) >>= fun errv =>
      pyGet d "state" (.obj []) >>= fun stateJ =>
      pyGet stateJ "testRunDurationMs" (.num 0) >>= fun durJ =>
      durJ.asNum >>= fun durMs =>
      pyGet vusValues "value" (.num 0) >>= fun vusv =>
      pyGet vusValues "max" (.num 0) >>= fun vusmaxv =>
      pyGet checksValues "rate" (.num 0) >>= fun cratev =>
      pyGet checksValues "count" (.num 0) >>= fun ccountv =>
      pyGet checksValues "passes" (.num 0) >>= fun cpassv =>
      pyGet checksValues "fails" (.num 0) >>= fun cfailv =>
      .ok (some
        { overall :=
            { p50 := p50v, p90 := p90v, p95 := p95v, p99 := p99v,
              avg := avgv, min := minv, max := maxv,
              total_requests := totalv, requests_per_sec := ratev,
              error_rate := errv, duration_s := .num (durMs / 1000),
              vus := vusv, vus_max := vusmaxv,
              checks_pass_rate := cratev, checks_total := ccountv,
              checks_passed := cpassv, checks_failed := cfailv },
          endpoints := endpoint_metrics })
    else .ok none

/-- `sorted(endpoints.items(), key=lambda x: x[1]['p95'], reverse=True)`
(line 127 of `create_all_endpoints_comparison`, and lines 396–397 of
`print_performance_summary`).  CPython's `sorted` is a stable sort and
`reverse=True` flips the comparison while keeping ties in scan order, so on
numeric keys it coincides extensionally with a stable merge sort on the
flipped order; `numD` reads the stored numeric `p95` key. -/
def sortedEndpoints (l : List (String × EndpointRecord)) :
    List (String × EndpointRecord) :=
  l.mergeSort (fun a b => decide (numD b.2.p95 ≤ numD a.2.p95))

/-- The `[:5]` slice on lines 396–397 of `print_performance_summary`. -/
def top5Slowest (l : List (String × EndpointRecord)) :
    List (String × EndpointRecord) :=
  (sortedEndpoints l).take 5

/-- A metric entry whose `values` field, when present, is a dict, so the
subfield reads on lines 53–69 cannot raise. -/
def valuesOk : Json → Bool
  | .obj ef => (objGetD ef "values" (.obj [])).isObj
  | .num _ => false

def metricOk (mf : Fields) (name : String) : Bool :=
  valuesOk (objGetD mf name (.obj []))

/-- A metric the loop on lines 36–49 can process without raising: either its
name does not carry the endpoint prefix, or the entry is a dict whose
`values` (when truthy) is a dict. -/
def latencyOk (p : String × Json) : Bool :=
  !pyStartsWith p.1 "latency_ms_" ||
    (match p.2 with
     | .obj ef =>
         !truthy (objGetD ef "values" (.obj [])) ||
           (objGetD ef "values" (.obj [])).isObj
     | .num _ => false)

/-- Line 63 cannot raise: `state`, when present, is a dict whose
`testRunDurationMs`, when present, is a number. -/
def stateOk (fs : Fields) : Bool :=
  match objGetD fs "state" (.obj []) with
  | .obj sf => (objGetD sf "testRunDurationMs" (.num 0)).isNum
  | .num _ => false

/-- Shapes on which the extractor completes without a CPython type error:
every value the code reads as a dict is a dict and the duration field is a
number.  Arbitrary absence of keys is allowed. -/
def wellTyped (fs : Fields) : Bool :=
  match objGetD fs "metrics" (.obj []) with
  | .obj mf =>
      metricOk mf "http_req_duration" && metricOk mf "http_reqs" &&
      metricOk mf "http_req_failed" && metricOk mf "vus" &&
      metricOk mf "checks" && mf.all latencyOk && stateOk fs
  | .num _ => false

/-- Path `metrics[name]['values']` with the code's defaults, as a total
function on fields. -/
def metricValuesD (mf : Fields) (name : String) : Fields :=
  fieldsD (objGetD (fieldsD (objGetD mf name (.obj []))) "values" (.obj []))

/-- Total description of the `'overall'` record the extractor builds; on
well-typed input it coincides with the record inside
`extract_performance_data` (lemma `extract_eq_of_wellTyped`). -/
def overallOf (fs : Fields) : OverallStats :=
  let mf := fieldsD (objGetD fs "metrics" (.obj []))
  let hd := metricValuesD mf "http_req_duration"
  let hr := metricValuesD mf "http_reqs"
  let hf := metricValuesD mf "http_req_failed"
  let vu := metricValuesD mf "vus"
  let ck := metricValuesD mf "checks"
  let sf := fieldsD (objGetD fs "state" (.obj []))
  { p50 := objGetD hd "med" (.num 0)
    p90 := objGetD hd "p(90)" (.num 0)
    p95 := objGetD hd "p(95)" (.num 0)
    p99 := objGetD hd "p(99)" (.num 0)
    avg := objGetD hd "avg" (.num 0)
    min := objGetD hd "min" (.num 0)
    max := objGetD hd "max" (.num 0)
    total_requests := objGetD hr "count" (.num 0)
    requests_per_sec := objGetD hr "rate" (.num 0)
    error_rate := objGetD hf "rate" (.num 0)
    duration_s := .num (numD (objGetD sf "testRunDurationMs" (.num 0)) / 1000)
    vus := objGetD vu "value" (.num 0)
    vus_max := objGetD vu "max" (.num 0)
    checks_pass_rate := objGetD ck "rate" (.num 0)
    checks_total := objGetD ck "count" (.num 0)
    checks_passed := objGetD ck "passes" (.num 0)
    checks_failed := objGetD ck "fails" (.num 0) }

/-- Whether a computation aborted with a `KeyError`. -/
def keyErrorResult {α : Type} : PyM α → Bool
  | .error (.keyError _) => true
  | _ => false

/-- A metric the loop on lines 36–49 skips because its `values` sub-mapping
is falsy — empty or absent (the `if values:` guard on line 40). -/
def skippedEmptyValues (p : String × Json) : Bool :=
  pyStartsWith p.1 "latency_ms_" &&
    (match p.2 with
     | .obj ef => !truthy (objGetD ef "values" (.obj []))
     | .num _ => false)

/-- Path `metrics[mname]['values'][k]` of a Raw Report, with the code's
defaults on the outer levels, used to phrase round-trip hypotheses. -/
def overallValueLookup (fs : Fields) (mname k : String) : Option Json :=
  objLookup (metricValuesD (fieldsD (objGetD fs "metrics" (.obj []))) mname) k

/-! ### Basic computation lemmas -/

@[simp] theorem ok_bind {α β : Type} (a : α) (f : α → PyM β) :
    ((Except.ok a : PyM α) >>= f) = f a := rfl

@[simp] theorem error_bind {α β : Type} (e : PyErr) (f : α → PyM β) :
    ((Except.error e : PyM α) >>= f) = .error e := rfl

@[simp] theorem asObj_obj (fs : Fields) : Json.asObj (.obj fs) = .ok fs := rfl

@[simp] theorem asObj_num (q : Rat) :
    Json.asObj (.num q) = .error (.attributeError "no attribute") := rfl

@[simp] theorem asNum_num (q : Rat) : Json.asNum (.num q) = .ok q := rfl

@[simp] theorem asNum_obj (fs : Fields) :
    Json.asNum (.obj fs) = .error (.typeError "unsupported operand") := rfl

@[simp] theorem pyGet_obj (fs : Fields) (k : String) (dflt : Json) :
    pyGet (.obj fs) k dflt = .ok (objGetD fs k dflt) := rfl

@[simp] theorem pyGet_num (q : Rat) (k : String) (dflt : Json) :
    pyGet (.num q) k dflt = .error (.attributeError "no attribute") := rfl

@[simp] theorem fieldsD_obj (fs : Fields) : fieldsD (.obj fs) = fs := rfl

@[simp] theorem numD_num (q : Rat) : numD (.num q) = q := rfl

theorem objGetD_eq (fs : Fields) (k : String) (d : Json) :
    objGetD fs k d = (objLookup fs k).getD d := rfl

theorem objLookup_nil (k : String) : objLookup ([] : Fields) k = none := rfl

theorem bind_eq_ok {α β : Type} {x : PyM α} {f : α → PyM β} {b : β} :
    (x >>= f) = .ok b ↔ ∃ a, x = .ok a ∧ f a = .ok b := by
  cases x with
  | ok a => simp
  | error e => simp

/-! ### No lookup in the extractor can raise `KeyError` -/

theorem keyErrorResult_bind {α β : Type} {x : PyM α} {f : α → PyM β}
    (hx : keyErrorResult x = false) (hf : ∀ a, keyErrorResult (f a) = false) :
    keyErrorResult (x >>= f) = false := by
  cases x with
  | ok a => simpa using hf a
  | error e => cases e <;> simp_all [keyErrorResult]

theorem keyErrorResult_pyGet (x : Json) (k : String) (dflt : Json) :
    keyErrorResult (pyGet x k dflt) = false := by
  cases x <;> rfl

theorem keyErrorResult_asObj (x : Json) :
    keyErrorResult x.asObj = false := by
  cases x <;> rfl

theorem keyErrorResult_asNum (x : Json) :
    keyErrorResult x.asNum = false := by
  cases x <;> rfl

theorem keyErrorResult_metricValues (m : Json) (name : String) :
    keyErrorResult (metricValues m name) = false := by
  unfold metricValues
  exact keyErrorResult_bind (keyErrorResult_pyGet m name _)
    fun entry => keyErrorResult_pyGet entry "values" _

theorem keyErrorResult_endpointContrib (p : String × Json) :
    keyErrorResult (endpointContrib p) = false := by
  unfold endpointContrib
  cases hsw : pyStartsWith p.1 "latency_ms_" with
  | false => rfl
  | true =>
    simp only [if_pos rfl]
    refine keyErrorResult_bind (keyErrorResult_pyGet _ _ _) fun values => ?_
    cases ht : truthy values with
    | false => simp [ht, keyErrorResult]
    | true =>
      simp only [ht, if_pos rfl]
      exact keyErrorResult_bind (keyErrorResult_asObj values) fun vf => rfl

theorem keyErrorResult_loopEndpoints (l : List (String × Json)) :
    ∀ acc, keyErrorResult (loopEndpoints l acc) = false := by
  induction l with
  | nil => intro acc; rfl
  | cons p rest ih =>
    intro acc
    show keyErrorResult (endpointContrib p >>= _) = false
    refine keyErrorResult_bind (keyErrorResult_endpointContrib p) fun c => ?_
    cases c with
    | none => exact ih acc
    | some kv => exact ih (dictInsert acc kv.1 kv.2)

/-- Claim C1: for every input (absent, or any nested mapping with any
combination of keys absent), `extract_performance_data` never fails with a
missing-key error: every lookup of `metrics`, `state`, a metric's `values`
sub-mapping, or any numeric field goes through `.get` with a numeric or
empty-dict default, so a `KeyError` is impossible (the embedding's raising
subscript `pyGetItem` is never reached). -/
theorem extract_never_keyError (data : Option Json) :
    keyErrorResult (extract_performance_data data) = false := by
  cases data with
  | none => rfl
  | some d =>
    unfold extract_performance_data
    cases htd : truthy d with
    | false => simp [htd, keyErrorResult]
    | true =>
      simp only [htd, if_pos rfl]
      refine keyErrorResult_bind (keyErrorResult_pyGet _ _ _) fun metrics => ?_
      refine keyErrorResult_bind (keyErrorResult_metricValues _ _) fun http_duration => ?_
      refine keyErrorResult_bind (keyErrorResult_metricValues _ _) fun http_reqs => ?_
      refine keyErrorResult_bind (keyErrorResult_metricValues _ _) fun http_failed => ?_
      refine keyErrorResult_bind (keyErrorResult_metricValues _ _) fun vusValues => ?_
      refine keyErrorResult_bind (keyErrorResult_metricValues _ _) fun checksValues => ?_
      refine keyErrorResult_bind (keyErrorResult_asObj _) fun mitems => ?_
      refine keyErrorResult_bind (keyErrorResult_loopEndpoints _ _) fun endpoint_metrics => ?_
      refine keyErrorResult_bind (keyErrorResult_pyGet _ _ _) fun p50v => ?_
      refine keyErrorResult_bind (keyErrorResult_pyGet _ _ _) fun p90v => ?_
      refine keyErrorResult_bind (keyErrorResult_pyGet _ _ _) fun p95v => ?_
      refine keyErrorResult_bind (keyErrorResult_pyGet _ _ _) fun p99v => ?_
      refine keyErrorResult_bind (keyErrorResult_pyGet _ _ _) fun avgv => ?_
      refine keyErrorResult_bind (keyErrorResult_pyGet _ _ _) fun minv => ?_
      refine keyErrorResult_bind (keyErrorResult_pyGet _ _ _) fun maxv => ?_
      refine keyErrorResult_bind (keyErrorResult_pyGet _ _ _) fun totalv => ?_
      refine keyErrorResult_bind (keyErrorResult_pyGet _ _ _) fun ratev => ?_
      refine keyErrorResult_bind (keyErrorResult_pyGet _ _ _) fun errv => ?_
      refine keyErrorResult_bind (keyErrorResult_pyGet _ _ _) fun stateJ => ?_
      refine keyErrorResult_bind (keyErrorResult_pyGet _ _ _) fun durJ => ?_
      refine keyErrorResult_bind (keyErrorResult_asNum _) fun durMs => ?_
      refine keyErrorResult_bind (keyErrorResult_pyGet _ _ _) fun vusv => ?_
      refine keyErrorResult_bind (keyErrorResult_pyGet _ _ _) fun vusmaxv => ?_
      refine keyErrorResult_bind (keyErrorResult_pyGet _ _ _) fun cratev => ?_
      refine keyErrorResult_bind (keyErrorResult_pyGet _ _ _) fun ccountv => ?_
      refine keyErrorResult_bind (keyErrorResult_pyGet _ _ _) fun cpassv => ?_
      refine keyErrorResult_bind (keyErrorResult_pyGet _ _ _) fun cfailv => ?_
      rfl

/-! ### Successful extraction on well-typed input -/

theorem metricValues_ok {mf : Fields} {name : String} (h : metricOk mf name = true) :
    metricValues (.obj mf) name = .ok (.obj (metricValuesD mf name)) := by
  unfold metricOk at h
  cases he : objGetD mf name (.obj []) with
  | num q => rw [he] at h; simp [valuesOk] at h
  | obj ef =>
    rw [he] at h
    simp only [valuesOk] at h
    cases hv : objGetD ef "values" (.obj []) with
    | num q => rw [hv] at h; simp [Json.isObj] at h
    | obj vf => simp [metricValues, metricValuesD, he, hv]

theorem endpointContrib_ok {p : String × Json} (h : latencyOk p = true) :
    ∃ c, endpointContrib p = .ok c := by
  unfold latencyOk at h
  unfold endpointContrib
  cases hsw : pyStartsWith p.1 "latency_ms_" with
  | false => exact ⟨none, by simp [hsw]⟩
  | true =>
    rw [hsw] at h
    simp only [Bool.not_true, Bool.false_or] at h
    cases hp : p.2 with
    | num q => rw [hp] at h; simp at h
    | obj ef =>
      simp only [hp] at h
      cases ht : truthy (objGetD ef "values" (.obj [])) with
      | false => exact ⟨none, by simp [hp, ht]⟩
      | true =>
        rw [ht] at h
        simp only [Bool.not_true, Bool.false_or] at h
        cases hv : objGetD ef "values" (.obj []) with
        | num q => rw [hv] at h; simp [Json.isObj] at h
        | obj vf =>
          refine ⟨some (pyReplace p.1 "latency_ms_" "", recordOfValues vf), ?_⟩
          rw [hv] at ht
          simp [hp, hv, ht]

theorem loopEndpoints_ok {l : List (String × Json)}
    (h : ∀ p ∈ l, latencyOk p = true) :
    ∀ acc, ∃ em, loopEndpoints l acc = .ok em := by
  induction l with
  | nil => exact fun acc => ⟨acc, rfl⟩
  | cons p rest ih =>
    intro acc
    obtain ⟨c, hc⟩ := endpointContrib_ok (h p (by simp))
    have hrest : ∀ q ∈ rest, latencyOk q = true := fun q hq => h q (by simp [hq])
    cases c with
    | none =>
      obtain ⟨em, hem⟩ := ih hrest acc
      exact ⟨em, by simp [loopEndpoints, hc, hem]⟩
    | some kv =>
      obtain ⟨k, v⟩ := kv
      obtain ⟨em, hem⟩ := ih hrest (dictInsert acc k v)
      exact ⟨em, by simp [loopEndpoints, hc, hem]⟩

theorem truthy_of_ne_nil {fs : Fields} (h : fs ≠ []) : truthy (.obj fs) = true := by
  cases fs with
  | nil => exact absurd rfl h
  | cons p rest => rfl

/-- On a non-empty, well-typed report the extractor succeeds and returns the
record described by `overallOf` together with the endpoint dict built by the
loop over the `metrics` items. -/
theorem extract_eq_of_wellTyped (fs : Fields) (h1 : fs ≠ [])
    (h2 : wellTyped fs = true) :
    ∃ em, loopEndpoints (fieldsD (objGetD fs "metrics" (.obj []))) [] = .ok em ∧
      extract_performance_data (some (.obj fs)) = .ok (some ⟨overallOf fs, em⟩) := by
  unfold wellTyped at h2
  cases hm : objGetD fs "metrics" (.obj []) with
  | num q => rw [hm] at h2; cases h2
  | obj mf =>
    rw [hm] at h2
    simp only [Bool.and_eq_true] at h2
    obtain ⟨⟨⟨⟨⟨⟨hok1, hok2⟩, hok3⟩, hok4⟩, hok5⟩, hall⟩, hst⟩ := h2
    have hall' : ∀ p ∈ mf, latencyOk p = true := by
      intro p hp; exact List.all_eq_true.mp hall p hp
    obtain ⟨em, hem⟩ := loopEndpoints_ok hall' []
    refine ⟨em, by simp [hm, hem], ?_⟩
    unfold stateOk at hst
    cases hs : objGetD fs "state" (.obj []) with
    | num q => rw [hs] at hst; cases hst
    | obj sf =>
      simp only [hs] at hst
      cases hq : objGetD sf "testRunDurationMs" (.num 0) with
      | obj o => rw [hq] at hst; simp [Json.isNum] at hst
      | num q =>
        simp only [extract_performance_data, truthy_of_ne_nil h1, if_pos,
          pyGet_obj, ok_bind, hm, metricValues_ok hok1, metricValues_ok hok2,
          metricValues_ok hok3, metricValues_ok hok4, metricValues_ok hok5,
          asObj_obj, hem, hs, hq, asNum_num]
        simp [overallOf, hm, hs, hq]

/-- Claim C2, counterexample: the empty mapping is a present Raw Report, yet
`extract_performance_data` returns `None` for it (the `if not data:` guard
treats the falsy empty dict like absent input), not the
{Overall Stats, Endpoint Stats} pair the claim requires. -/
theorem extract_empty_returns_none :
    extract_performance_data (some (.obj [])) = .ok none ∧
      ¬∃ r, extract_performance_data (some (.obj [])) = .ok (some r) := by
  refine ⟨rfl, ?_⟩
  rintro ⟨r, h⟩
  simp [extract_performance_data, truthy] at h

/-- Claim C2, amended: `extract_performance_data` returns `None` exactly when
its input is absent or the empty (falsy) mapping; for every present non-empty
well-formed Raw Report it returns the {Overall Stats, Endpoint Stats} pair. -/
theorem extract_none_exactly_on_absent_or_empty :
    extract_performance_data none = .ok none ∧
    extract_performance_data (some (.obj [])) = .ok none ∧
    ∀ fs : Fields, fs ≠ [] → wellTyped fs = true →
      ∃ r, extract_performance_data (some (.obj fs)) = .ok (some r) := by
  refine ⟨rfl, rfl, fun fs h1 h2 => ?_⟩
  obtain ⟨em, -, he⟩ := extract_eq_of_wellTyped fs h1 h2
  exact ⟨⟨overallOf fs, em⟩, he⟩

/-- Claim C2, amended, witness at a concrete one-key report. -/
theorem extract_none_exactly_on_absent_or_empty_witness :
    ∃ r, extract_performance_data
        (some (.obj [("state", .obj [("testRunDurationMs", .num 2000)])])) =
      .ok (some r) :=
  extract_none_exactly_on_absent_or_empty.2.2 _ (by simp) (by decide)

/-- Claim C3, counterexample: the Raw Report
`{'state': {'testRunDurationMs': 1000}}` has no `metrics` key, yet the
Overall Stats record extracted from it does not have all fields 0: its
`duration_s` is `1000 / 1000`, not `0`. -/
theorem extract_no_metrics_counterexample :
    extract_performance_data
        (some (.obj [("state", .obj [("testRunDurationMs", .num 1000)])])) =
      .ok (some ⟨overallOf [("state", .obj [("testRunDurationMs", .num 1000)])], []⟩) ∧
    (overallOf [("state", .obj [("testRunDurationMs", .num 1000)])]).duration_s ≠
      .num 0 := by
  refine ⟨rfl, fun hcontra => ?_⟩
  have hd : (overallOf [("state", .obj [("testRunDurationMs", .num 1000)])]).duration_s =
      Json.num ((1000 : Rat) / 1000) := rfl
  rw [hd] at hcontra
  simp only [Json.num.injEq] at hcontra
  norm_num at hcontra

/-- Claim C3, amended: for every non-empty Raw Report with no `metrics` key
(and well-typed, so extraction completes), extraction returns an Overall
Stats record whose fields are all 0 — except `duration_s`, which still
reflects `state.testRunDurationMs` — together with an empty Endpoint Stats
mapping. -/
theorem extract_no_metrics_all_zero (fs : Fields) (h1 : fs ≠ [])
    (hnm : objLookup fs "metrics" = none) (h2 : wellTyped fs = true) :
    ∃ r, extract_performance_data (some (.obj fs)) = .ok (some r) ∧
      r.endpoints = [] ∧
      r.overall.p50 = .num 0 ∧ r.overall.p90 = .num 0 ∧ r.overall.p95 = .num 0 ∧
      r.overall.p99 = .num 0 ∧ r.overall.avg = .num 0 ∧ r.overall.min = .num 0 ∧
      r.overall.max = .num 0 ∧ r.overall.total_requests = .num 0 ∧
      r.overall.requests_per_sec = .num 0 ∧ r.overall.error_rate = .num 0 ∧
      r.overall.vus = .num 0 ∧ r.overall.vus_max = .num 0 ∧
      r.overall.checks_pass_rate = .num 0 ∧ r.overall.checks_total = .num 0 ∧
      r.overall.checks_passed = .num 0 ∧ r.overall.checks_failed = .num 0 := by
  obtain ⟨em, hem, he⟩ := extract_eq_of_wellTyped fs h1 h2
  have hg : objGetD fs "metrics" (.obj []) = .obj [] := by
    simp [objGetD, hnm]
  rw [hg] at hem
  simp only [fieldsD_obj, loopEndpoints] at hem
  obtain rfl : ([] : List (String × EndpointRecord)) = em := by
    exact Except.ok.inj hem
  refine ⟨⟨overallOf fs, []⟩, he, rfl, ?_⟩
  simp [overallOf, metricValuesD, objGetD_eq, hnm, objLookup_nil]

/-- Claim C3, amended, witness at the concrete report
`{'state': {'testRunDurationMs': 2000}}`. -/
theorem extract_no_metrics_all_zero_witness :
    ∃ r, extract_performance_data
        (some (.obj [("state", .obj [("testRunDurationMs", .num 2000)])])) =
      .ok (some r) ∧
      r.endpoints = [] ∧
      r.overall.p50 = .num 0 ∧ r.overall.p90 = .num 0 ∧ r.overall.p95 = .num 0 ∧
      r.overall.p99 = .num 0 ∧ r.overall.avg = .num 0 ∧ r.overall.min = .num 0 ∧
      r.overall.max = .num 0 ∧ r.overall.total_requests = .num 0 ∧
      r.overall.requests_per_sec = .num 0 ∧ r.overall.error_rate = .num 0 ∧
      r.overall.vus = .num 0 ∧ r.overall.vus_max = .num 0 ∧
      r.overall.checks_pass_rate = .num 0 ∧ r.overall.checks_total = .num 0 ∧
      r.overall.checks_passed = .num 0 ∧ r.overall.checks_failed = .num 0 :=
  extract_no_metrics_all_zero _ (by simp) rfl (by decide)

/-- Claim C8: the `duration_s` field of Overall Stats equals
`state.testRunDurationMs / 1000`, and equals 0 whenever the `state` mapping
or its `testRunDurationMs` field is absent. -/
theorem duration_s_spec (fs : Fields) (h1 : fs ≠ []) (h2 : wellTyped fs = true)
    (r : ExtractResult)
    (hr : extract_performance_data (some (.obj fs)) = .ok (some r)) :
    (∀ sf q, objLookup fs "state" = some (.obj sf) →
        objLookup sf "testRunDurationMs" = some (.num q) →
        r.overall.duration_s = .num (q / 1000)) ∧
    (objLookup fs "state" = none → r.overall.duration_s = .num 0) ∧
    (∀ sf, objLookup fs "state" = some (.obj sf) →
        objLookup sf "testRunDurationMs" = none →
        r.overall.duration_s = .num 0) := by
  obtain ⟨em, -, he⟩ := extract_eq_of_wellTyped fs h1 h2
  rw [he] at hr
  obtain rfl : (⟨overallOf fs, em⟩ : ExtractResult) = r :=
    Option.some.inj (Except.ok.inj hr)
  refine ⟨fun sf q hst hdur => ?_, fun hst => ?_, fun sf hst hdur => ?_⟩
  · simp [overallOf, objGetD_eq, hst, hdur]
  · simp [overallOf, objGetD_eq, hst, objLookup_nil, zero_div]
  · simp [overallOf, objGetD_eq, hst, hdur, zero_div]

/-- Claim C8, witness: at `{'state': {'testRunDurationMs': 2000}}` the
extracted `duration_s` is `2000 / 1000`. -/
theorem duration_s_spec_witness :
    (⟨overallOf [("state", .obj [("testRunDurationMs", .num 2000)])], []⟩ :
        ExtractResult).overall.duration_s = .num (2000 / 1000) :=
  (duration_s_spec [("state", .obj [("testRunDurationMs", .num 2000)])]
    (by simp) (by decide)
    ⟨overallOf [("state", .obj [("testRunDurationMs", .num 2000)])], []⟩ rfl).1
    [("testRunDurationMs", .num 2000)] 2000 rfl rfl

/-- Claim C9: any Raw Report whose metrics contain
`http_req_duration.values` with `med = 120`, `p(90) = 300`, `p(95) = 450`,
`p(99) = 900` and `http_reqs.values` with `count = 10000`, `rate = 55.5`
extracts to Overall Stats with `p50 = 120`, `p90 = 300`, `p95 = 450`,
`p99 = 900`, `total_requests = 10000`, `requests_per_sec = 55.5`. -/
theorem round_trip_overall (fs : Fields) (h1 : fs ≠ []) (h2 : wellTyped fs = true)
    (hmed : overallValueLookup fs "http_req_duration" "med" = some (.num 120))
    (hp90 : overallValueLookup fs "http_req_duration" "p(90)" = some (.num 300))
    (hp95 : overallValueLookup fs "http_req_duration" "p(95)" = some (.num 450))
    (hp99 : overallValueLookup fs "http_req_duration" "p(99)" = some (.num 900))
    (hcount : overallValueLookup fs "http_reqs" "count" = some (.num 10000))
    (hrate : overallValueLookup fs "http_reqs" "rate" = some (.num 55.5)) :
    ∃ r, extract_performance_data (some (.obj fs)) = .ok (some r) ∧
      r.overall.p50 = .num 120 ∧ r.overall.p90 = .num 300 ∧
      r.overall.p95 = .num 450 ∧ r.overall.p99 = .num 900 ∧
      r.overall.total_requests = .num 10000 ∧
      r.overall.requests_per_sec = .num 55.5 := by
  obtain ⟨em, -, he⟩ := extract_eq_of_wellTyped fs h1 h2
  refine ⟨⟨overallOf fs, em⟩, he, ?_⟩
  unfold overallValueLookup at hmed hp90 hp95 hp99 hcount hrate
  simp only [objGetD_eq] at hmed hp90 hp95 hp99 hcount hrate
  simp [overallOf, objGetD_eq, hmed, hp90, hp95, hp99, hcount, hrate]

/-- Claim C9, witness at a concrete fixture with exactly those values. -/
theorem round_trip_overall_witness :
    ∃ r, extract_performance_data (some (.obj
        [("metrics", .obj
          [("http_req_duration", .obj [("values", .obj
            [("med", .num 120), ("p(90)", .num 300), ("p(95)", .num 450),
             ("p(99)", .num 900)])]),
           ("http_reqs", .obj [("values", .obj
            [("count", .num 10000), ("rate", .num 55.5)])])])])) =
      .ok (some r) ∧
      r.overall.p50 = .num 120 ∧ r.overall.p90 = .num 300 ∧
      r.overall.p95 = .num 450 ∧ r.overall.p99 = .num 900 ∧
      r.overall.total_requests = .num 10000 ∧
      r.overall.requests_per_sec = .num 55.5 :=
  round_trip_overall _ (by simp) (by decide) rfl rfl rfl rfl rfl rfl

/-! ### The endpoint dict: insertion and lookup -/

theorem assocLookup_dictInsert_self {α : Type} (k : String) (v : α) :
    ∀ d : List (String × α), assocLookup (dictInsert d k v) k = some v := by
  intro d
  induction d with
  | nil => simp [dictInsert, assocLookup, List.find?]
  | cons p t ih =>
    cases hp : p.1 == k with
    | true => simp [dictInsert, hp, assocLookup, List.find?]
    | false =>
      simp only [dictInsert, hp, Bool.false_eq_true, if_false]
      simpa [assocLookup, List.find?_cons, hp] using ih

theorem assocLookup_dictInsert_ne {α : Type} {k k' : String} (hne : k ≠ k') (v : α) :
    ∀ d : List (String × α), assocLookup (dictInsert d k' v) k = assocLookup d k := by
  have hb : (k' == k) = false := beq_eq_false_iff_ne.mpr (Ne.symm hne)
  intro d
  induction d with
  | nil => simp [dictInsert, assocLookup, List.find?, hb]
  | cons p t ih =>
    cases hp : p.1 == k' with
    | true =>
      have hpk : (p.1 == k) = false := by
        rw [eq_of_beq hp]; exact hb
      simp [dictInsert, hp, assocLookup, List.find?_cons, hb, hpk]
    | false =>
      cases hpk : p.1 == k with
      | true =>
        simp [dictInsert, hp, assocLookup, List.find?_cons, hpk]
      | false =>
        simp only [dictInsert, hp, Bool.false_eq_true, if_false]
        simpa [assocLookup, List.find?_cons, hpk] using ih

theorem eq_or_mem_of_mem_dictInsert {α : Type} {k' : String} {v' : α}
    {x : String × α} :
    ∀ {d : List (String × α)}, x ∈ dictInsert d k' v' → x = (k', v') ∨ x ∈ d := by
  intro d
  induction d with
  | nil => intro h; simpa [dictInsert] using h
  | cons p t ih =>
    intro h
    cases hp : p.1 == k' with
    | true =>
      rw [dictInsert, if_pos hp] at h
      rcases List.mem_cons.mp h with h1 | h1
      · exact .inl h1
      · exact .inr (List.mem_cons_of_mem p h1)
    | false =>
      rw [dictInsert, if_neg (by simp [hp])] at h
      rcases List.mem_cons.mp h with h1 | h1
      · exact .inr (h1 ▸ List.mem_cons_self p t)
      · rcases ih h1 with h2 | h2
        · exact .inl h2
        · exact .inr (List.mem_cons_of_mem p h2)

/-! ### The loop body: when a metric contributes an endpoint entry -/

theorem endpointContrib_not_sw {p : String × Json}
    (h : pyStartsWith p.1 "latency_ms_" = false) : endpointContrib p = .ok none := by
  simp [endpointContrib, h]

theorem endpointContrib_of_obj {n : String} {ef vf : Fields}
    (hsw : pyStartsWith n "latency_ms_" = true)
    (hv : objGetD ef "values" (.obj []) = .obj vf)
    (ht : truthy (.obj vf) = true) :
    endpointContrib (n, .obj ef) =
      .ok (some (pyReplace n "latency_ms_" "", recordOfValues vf)) := by
  simp [endpointContrib, hsw, hv, ht]

theorem endpointContrib_skipped {p : String × Json}
    (h : skippedEmptyValues p = true) : endpointContrib p = .ok none := by
  unfold skippedEmptyValues at h
  simp only [Bool.and_eq_true] at h
  obtain ⟨hsw, hm⟩ := h
  cases hp : p.2 with
  | num q => rw [hp] at hm; cases hm
  | obj ef =>
    simp only [hp] at hm
    have hm' : truthy (objGetD ef "values" (.obj [])) = false := by
      simpa using hm
    simp [endpointContrib, hsw, hp, hm']

theorem endpointContrib_some_inv {p : String × Json} {k : String} {v : EndpointRecord}
    (h : endpointContrib p = .ok (some (k, v))) :
    pyStartsWith p.1 "latency_ms_" = true ∧ k = pyReplace p.1 "latency_ms_" "" ∧
      ∃ ef vf, p.2 = .obj ef ∧ objGetD ef "values" (.obj []) = .obj vf ∧
        truthy (.obj vf) = true ∧ v = recordOfValues vf := by
  unfold endpointContrib at h
  cases hsw : pyStartsWith p.1 "latency_ms_" with
  | false => rw [hsw] at h; simp at h
  | true =>
    rw [hsw] at h
    simp only [if_pos] at h
    refine ⟨rfl, ?_⟩
    cases hp : p.2 with
    | num q => rw [hp] at h; simp at h
    | obj ef =>
      rw [hp] at h
      simp only [pyGet_obj, ok_bind] at h
      cases ht : truthy (objGetD ef "values" (.obj [])) with
      | false => rw [ht] at h; simp at h
      | true =>
        rw [ht] at h
        simp only [if_pos] at h
        cases hv : objGetD ef "values" (.obj []) with
        | num q => rw [hv] at h; simp at h
        | obj vf =>
          rw [hv] at h
          simp only [asObj_obj, ok_bind, Except.ok.injEq, Option.some.injEq,
            Prod.mk.injEq] at h
          rw [hv] at ht
          exact ⟨h.1.symm, ef, vf, rfl, hv, ht, h.2.symm⟩

/-! ### Inverting a successful extraction -/

theorem extract_ok_inv {fs : Fields} {res : ExtractResult}
    (hr : extract_performance_data (some (.obj fs)) = .ok (some res)) :
    ∃ mf, objGetD fs "metrics" (.obj []) = .obj mf ∧
      loopEndpoints mf [] = .ok res.endpoints := by
  cases htr : truthy (.obj fs) with
  | false => simp [extract_performance_data, htr] at hr
  | true =>
    simp only [extract_performance_data, htr, if_pos] at hr
    rw [bind_eq_ok] at hr; obtain ⟨metrics, hm0, hr⟩ := hr
    rw [pyGet_obj] at hm0
    obtain rfl : objGetD fs "metrics" (.obj []) = metrics := Except.ok.inj hm0
    rw [bind_eq_ok] at hr; obtain ⟨http_duration, -, hr⟩ := hr
    rw [bind_eq_ok] at hr; obtain ⟨http_reqs, -, hr⟩ := hr
    rw [bind_eq_ok] at hr; obtain ⟨http_failed, -, hr⟩ := hr
    rw [bind_eq_ok] at hr; obtain ⟨vusValues, -, hr⟩ := hr
    rw [bind_eq_ok] at hr; obtain ⟨checksValues, -, hr⟩ := hr
    rw [bind_eq_ok] at hr; obtain ⟨mitems, hmi, hr⟩ := hr
    rw [bind_eq_ok] at hr; obtain ⟨em, hl, hr⟩ := hr
    rw [bind_eq_ok] at hr; obtain ⟨_, -, hr⟩ := hr
    rw [bind_eq_ok] at hr; obtain ⟨_, -, hr⟩ := hr
    rw [bind_eq_ok] at hr; obtain ⟨_, -, hr⟩ := hr
    rw [bind_eq_ok] at hr; obtain ⟨_, -, hr⟩ := hr
    rw [bind_eq_ok] at hr; obtain ⟨_, -, hr⟩ := hr
    rw [bind_eq_ok] at hr; obtain ⟨_, -, hr⟩ := hr
    rw [bind_eq_ok] at hr; obtain ⟨_, -, hr⟩ := hr
    rw [bind_eq_ok] at hr; obtain ⟨_, -, hr⟩ := hr
    rw [bind_eq_ok] at hr; obtain ⟨_, -, hr⟩ := hr
    rw [bind_eq_ok] at hr; obtain ⟨_, -, hr⟩ := hr
    rw [bind_eq_ok] at hr; obtain ⟨_, -, hr⟩ := hr
    rw [bind_eq_ok] at hr; obtain ⟨_, -, hr⟩ := hr
    rw [bind_eq_ok] at hr; obtain ⟨_, -, hr⟩ := hr
    rw [bind_eq_ok] at hr; obtain ⟨_, -, hr⟩ := hr
    rw [bind_eq_ok] at hr; obtain ⟨_, -, hr⟩ := hr
    rw [bind_eq_ok] at hr; obtain ⟨_, -, hr⟩ := hr
    rw [bind_eq_ok] at hr; obtain ⟨_, -, hr⟩ := hr
    rw [bind_eq_ok] at hr; obtain ⟨_, -, hr⟩ := hr
    rw [bind_eq_ok] at hr; obtain ⟨_, -, hr⟩ := hr
    cases hmm : objGetD fs "metrics" (.obj []) with
    | num q => rw [hmm] at hmi; simp at hmi
    | obj mf =>
      rw [hmm] at hmi
      rw [asObj_obj] at hmi
      obtain rfl : mf = mitems := Except.ok.inj hmi
      obtain rfl : _ = res := Option.some.inj (Except.ok.inj hr)
      exact ⟨mf, rfl, hl⟩

/-! ### Provenance and lookup behaviour of the endpoint loop -/

theorem loop_provenance :
    ∀ (l : List (String × Json)) (acc r : List (String × EndpointRecord)),
      loopEndpoints l acc = .ok r → ∀ k rec, (k, rec) ∈ r →
        (k, rec) ∈ acc ∨ ∃ n md, (n, md) ∈ l ∧
          pyStartsWith n "latency_ms_" = true ∧
          k = pyReplace n "latency_ms_" "" := by
  intro l
  induction l with
  | nil =>
    intro acc r hok k rec hm
    obtain rfl : acc = r := Except.ok.inj hok
    exact .inl hm
  | cons p t ih =>
    intro acc r hok k rec hm
    simp only [loopEndpoints] at hok
    cases hc : endpointContrib p with
    | error e => simp [hc] at hok
    | ok c =>
      rw [hc, ok_bind] at hok
      cases c with
      | none =>
        rcases ih acc r hok k rec hm with h1 | ⟨n, md, hmem, hsw, hk⟩
        · exact .inl h1
        · exact .inr ⟨n, md, List.mem_cons_of_mem p hmem, hsw, hk⟩
      | some kv =>
        obtain ⟨k', v'⟩ := kv
        rcases ih _ r hok k rec hm with h1 | ⟨n, md, hmem, hsw, hk⟩
        · rcases eq_or_mem_of_mem_dictInsert h1 with h2 | h2
          · obtain ⟨hsw', hkk, -⟩ := endpointContrib_some_inv hc
            have h3 : k = k' := congrArg Prod.fst h2
            refine .inr ⟨p.1, p.2, ?_, hsw', h3.trans hkk⟩
            rw [Prod.mk.eta]
            exact List.mem_cons_self p t
          · exact .inl h2
        · exact .inr ⟨n, md, List.mem_cons_of_mem p hmem, hsw, hk⟩

theorem loop_lookup_frozen {K : String} :
    ∀ (l : List (String × Json)) (acc r : List (String × EndpointRecord)),
      loopEndpoints l acc = .ok r →
      (∀ p ∈ l, pyStartsWith p.1 "latency_ms_" = true →
        pyReplace p.1 "latency_ms_" "" ≠ K) →
      assocLookup r K = assocLookup acc K := by
  intro l
  induction l with
  | nil =>
    intro acc r hok _
    obtain rfl : acc = r := Except.ok.inj hok
    rfl
  | cons p t ih =>
    intro acc r hok h
    simp only [loopEndpoints] at hok
    cases hc : endpointContrib p with
    | error e => simp [hc] at hok
    | ok c =>
      rw [hc, ok_bind] at hok
      cases c with
      | none => exact ih acc r hok fun q hq => h q (List.mem_cons_of_mem p hq)
      | some kv =>
        obtain ⟨k', v'⟩ := kv
        obtain ⟨hsw, hkk, -⟩ := endpointContrib_some_inv hc
        have hne : k' ≠ K := by
          rw [hkk]; exact h p (List.mem_cons_self p t) hsw
        have h2 := ih _ r hok fun q hq => h q (List.mem_cons_of_mem p hq)
        rw [h2, assocLookup_dictInsert_ne (Ne.symm hne)]

theorem loop_lookup_unique {name : String} {ef vf : Fields}
    (hsw : pyStartsWith name "latency_ms_" = true)
    (hv : objGetD ef "values" (.obj []) = .obj vf)
    (ht : truthy (.obj vf) = true) :
    ∀ (l : List (String × Json)) (acc r : List (String × EndpointRecord)),
      loopEndpoints l acc = .ok r →
      (name, Json.obj ef) ∈ l →
      (l.map Prod.fst).Nodup →
      (∀ p ∈ l, p.1 ≠ name → pyStartsWith p.1 "latency_ms_" = true →
        pyReplace p.1 "latency_ms_" "" ≠ pyReplace name "latency_ms_" "") →
      assocLookup r (pyReplace name "latency_ms_" "") =
        some (recordOfValues vf) := by
  intro l
  induction l with
  | nil => intro acc r _ hmem; exact absurd hmem (List.not_mem_nil _)
  | cons p t ih =>
    intro acc r hok hmem hnd huniq
    simp only [List.map_cons, List.nodup_cons] at hnd
    simp only [loopEndpoints] at hok
    rcases List.mem_cons.mp hmem with heq | hmemt
    · obtain rfl : p = (name, Json.obj ef) := heq.symm
      rw [endpointContrib_of_obj hsw hv ht, ok_bind] at hok
      refine Eq.trans
        (@loop_lookup_frozen (pyReplace name "latency_ms_" "") t
          (dictInsert acc (pyReplace name "latency_ms_" "") (recordOfValues vf))
          r hok ?_)
        (assocLookup_dictInsert_self _ _ _)
      intro q hq hqsw
      have hq1 : q.1 ≠ name := by
        intro hcontra
        have hq2 : q.1 ∈ t.map Prod.fst := List.mem_map_of_mem Prod.fst hq
        rw [hcontra] at hq2
        exact hnd.1 hq2
      exact huniq q (List.mem_cons_of_mem _ hq) hq1 hqsw
    · have hp1 : p.1 ≠ name := by
        intro hcontra
        have hq2 : name ∈ t.map Prod.fst := List.mem_map_of_mem Prod.fst hmemt
        rw [← hcontra] at hq2
        exact hnd.1 hq2
      cases hc : endpointContrib p with
      | error e => simp [hc] at hok
      | ok c =>
        rw [hc, ok_bind] at hok
        cases c with
        | none =>
          exact ih acc r hok hmemt hnd.2
            fun q hq => huniq q (List.mem_cons_of_mem p hq)
        | some kv =>
          obtain ⟨k', v'⟩ := kv
          exact ih _ r hok hmemt hnd.2
            fun q hq => huniq q (List.mem_cons_of_mem p hq)

theorem loop_preserves_key {K : String} :
    ∀ (l : List (String × Json)) (acc r : List (String × EndpointRecord)),
      loopEndpoints l acc = .ok r →
      (assocLookup acc K).isSome = true → (assocLookup r K).isSome = true := by
  intro l
  induction l with
  | nil =>
    intro acc r hok h
    obtain rfl : acc = r := Except.ok.inj hok
    exact h
  | cons p t ih =>
    intro acc r hok h
    simp only [loopEndpoints] at hok
    cases hc : endpointContrib p with
    | error e => simp [hc] at hok
    | ok c =>
      rw [hc, ok_bind] at hok
      cases c with
      | none => exact ih acc r hok h
      | some kv =>
        obtain ⟨k', v'⟩ := kv
        refine ih _ r hok ?_
        by_cases hk : k' = K
        · subst hk; rw [assocLookup_dictInsert_self]; rfl
        · rw [assocLookup_dictInsert_ne (Ne.symm hk)]; exact h

theorem loop_key_present {name : String} {ef vf : Fields}
    (hsw : pyStartsWith name "latency_ms_" = true)
    (hv : objGetD ef "values" (.obj []) = .obj vf)
    (ht : truthy (.obj vf) = true) :
    ∀ (l : List (String × Json)) (acc r : List (String × EndpointRecord)),
      loopEndpoints l acc = .ok r →
      (name, Json.obj ef) ∈ l →
      (assocLookup r (pyReplace name "latency_ms_" "")).isSome = true := by
  intro l
  induction l with
  | nil => intro acc r _ hmem; exact absurd hmem (List.not_mem_nil _)
  | cons p t ih =>
    intro acc r hok hmem
    simp only [loopEndpoints] at hok
    rcases List.mem_cons.mp hmem with heq | hmemt
    · obtain rfl : p = (name, Json.obj ef) := heq.symm
      rw [endpointContrib_of_obj hsw hv ht, ok_bind] at hok
      refine loop_preserves_key t _ r hok ?_
      rw [assocLookup_dictInsert_self]; rfl
    · cases hc : endpointContrib p with
      | error e => simp [hc] at hok
      | ok c =>
        rw [hc, ok_bind] at hok
        cases c with
        | none => exact ih acc r hok hmemt
        | some kv =>
          obtain ⟨k', v'⟩ := kv
          exact ih _ r hok hmemt

/-- Claim C5: every entry of the Endpoint Stats mapping returned by
extraction derives from a metric whose name starts with `latency_ms_` (the
entry's key is that name transformed by the prefix replacement); hence a
metric whose name does not start with the prefix never yields an entry. -/
theorem endpoints_only_from_latency (fs : Fields) (res : ExtractResult)
    (hr : extract_performance_data (some (.obj fs)) = .ok (some res))
    (k : String) (rec : EndpointRecord) (hmem : (k, rec) ∈ res.endpoints) :
    ∃ n md, (n, md) ∈ fieldsD (objGetD fs "metrics" (.obj [])) ∧
      pyStartsWith n "latency_ms_" = true ∧ k = pyReplace n "latency_ms_" "" := by
  obtain ⟨mf, hm, hl⟩ := extract_ok_inv hr
  rcases loop_provenance mf [] res.endpoints hl k rec hmem with h1 | ⟨n, md, h2, h3, h4⟩
  · exact absurd h1 (List.not_mem_nil _)
  · refine ⟨n, md, ?_, h3, h4⟩
    rw [hm]
    exact h2

/-- Claim C5, witness at a one-endpoint fixture. -/
theorem endpoints_only_from_latency_witness :
    ∃ n md,
      (n, md) ∈ fieldsD (objGetD
        [("metrics", Json.obj [("latency_ms_home", Json.obj
          [("values", Json.obj [("avg", Json.num 1)])])])] "metrics" (.obj [])) ∧
      pyStartsWith n "latency_ms_" = true ∧
      "home" = pyReplace n "latency_ms_" "" :=
  endpoints_only_from_latency
    [("metrics", Json.obj [("latency_ms_home", Json.obj
      [("values", Json.obj [("avg", Json.num 1)])])])]
    ⟨overallOf [("metrics", Json.obj [("latency_ms_home", Json.obj
      [("values", Json.obj [("avg", Json.num 1)])])])],
     [("home", recordOfValues [("avg", Json.num 1)])]⟩
    rfl "home" (recordOfValues [("avg", Json.num 1)]) (by simp)

/-- Claim C4, counterexample: the metric name `latency_ms_a_latency_ms_b`
begins with the prefix and has non-empty values, but the recorded endpoint
identifier is `a_b` — CPython's `replace` removes every occurrence of
`latency_ms_` — not `a_latency_ms_b`, the name with only the leading prefix
stripped and the rest unchanged. -/
theorem endpoint_replace_all_counterexample :
    extract_performance_data (some (.obj
        [("metrics", Json.obj [("latency_ms_a_latency_ms_b", Json.obj
          [("values", Json.obj [("avg", Json.num 1)])])])])) =
      .ok (some ⟨overallOf [("metrics", Json.obj [("latency_ms_a_latency_ms_b",
          Json.obj [("values", Json.obj [("avg", Json.num 1)])])])],
        [("a_b", recordOfValues [("avg", Json.num 1)])]⟩) ∧
    "a_b" ≠ "a_latency_ms_b" :=
  ⟨rfl, by decide⟩

/-- Claim C4, amended: for every metric name that begins with `latency_ms_`
and has a non-empty `values` mapping — no other metric colliding onto the
same identifier — the endpoint identifier recorded in Endpoint Stats equals
the metric name with every occurrence of `latency_ms_` removed (CPython
`str.replace`, which strips the leading prefix and also any later
occurrence), and its record holds the seven fields avg, min, med, p90, p95,
p99, max, each defaulting to 0 when absent from `values`. -/
theorem endpoint_record_spec (fs : Fields) (res : ExtractResult)
    (hr : extract_performance_data (some (.obj fs)) = .ok (some res))
    (mf : Fields) (hm : objGetD fs "metrics" (.obj []) = .obj mf)
    (name : String) (ef vf : Fields)
    (hmem : (name, Json.obj ef) ∈ mf)
    (hsw : pyStartsWith name "latency_ms_" = true)
    (hvals : objGetD ef "values" (.obj []) = .obj vf)
    (hne : truthy (.obj vf) = true)
    (hnd : (mf.map Prod.fst).Nodup)
    (huniq : ∀ p ∈ mf, p.1 ≠ name → pyStartsWith p.1 "latency_ms_" = true →
      pyReplace p.1 "latency_ms_" "" ≠ pyReplace name "latency_ms_" "") :
    assocLookup res.endpoints (pyReplace name "latency_ms_" "") =
      some { avg := objGetD vf "avg" (.num 0), min := objGetD vf "min" (.num 0),
             med := objGetD vf "med" (.num 0), p90 := objGetD vf "p(90)" (.num 0),
             p95 := objGetD vf "p(95)" (.num 0), p99 := objGetD vf "p(99)" (.num 0),
             max := objGetD vf "max" (.num 0) } := by
  obtain ⟨mf', hm', hl⟩ := extract_ok_inv hr
  obtain rfl : mf = mf' := by
    rw [hm] at hm'
    exact Json.obj.inj hm'
  exact loop_lookup_unique hsw hvals hne mf [] res.endpoints hl hmem hnd huniq

/-- Claim C4, amended, witness at a two-metric fixture. -/
theorem endpoint_record_spec_witness :
    assocLookup
      (⟨overallOf [("metrics", Json.obj
          [("latency_ms_login", Json.obj [("values", Json.obj [("p(95)", Json.num 200)])]),
           ("http_reqs", Json.obj [("values", Json.obj [("count", Json.num 5)])])])],
        [("login", recordOfValues [("p(95)", Json.num 200)])]⟩ :
          ExtractResult).endpoints
      (pyReplace "latency_ms_login" "latency_ms_" "") =
      some { avg := objGetD [("p(95)", Json.num 200)] "avg" (.num 0),
             min := objGetD [("p(95)", Json.num 200)] "min" (.num 0),
             med := objGetD [("p(95)", Json.num 200)] "med" (.num 0),
             p90 := objGetD [("p(95)", Json.num 200)] "p(90)" (.num 0),
             p95 := objGetD [("p(95)", Json.num 200)] "p(95)" (.num 0),
             p99 := objGetD [("p(95)", Json.num 200)] "p(99)" (.num 0),
             max := objGetD [("p(95)", Json.num 200)] "max" (.num 0) } :=
  endpoint_record_spec
    [("metrics", Json.obj
      [("latency_ms_login", Json.obj [("values", Json.obj [("p(95)", Json.num 200)])]),
       ("http_reqs", Json.obj [("values", Json.obj [("count", Json.num 5)])])])]
    ⟨overallOf [("metrics", Json.obj
      [("latency_ms_login", Json.obj [("values", Json.obj [("p(95)", Json.num 200)])]),
       ("http_reqs", Json.obj [("values", Json.obj [("count", Json.num 5)])])])],
      [("login", recordOfValues [("p(95)", Json.num 200)])]⟩
    rfl
    [("latency_ms_login", Json.obj [("values", Json.obj [("p(95)", Json.num 200)])]),
     ("http_reqs", Json.obj [("values", Json.obj [("count", Json.num 5)])])]
    rfl "latency_ms_login" [("values", Json.obj [("p(95)", Json.num 200)])]
    [("p(95)", Json.num 200)]
    (by simp) (by decide) rfl (by decide) (by decide) (by decide)

/-- Claim C6: a metric whose name carries the endpoint prefix but whose
`values` sub-mapping is falsy — empty or absent — is skipped entirely by the
loop that builds Endpoint Stats: deleting every such metric from the scanned
items leaves the resulting endpoint dict unchanged, so in particular no
all-zero record is fabricated for it. -/
theorem loop_skips_empty_values (l : List (String × Json))
    (acc : List (String × EndpointRecord)) :
    loopEndpoints (l.filter (fun p => !skippedEmptyValues p)) acc =
      loopEndpoints l acc := by
  induction l generalizing acc with
  | nil => rfl
  | cons p t ih =>
    cases hs : skippedEmptyValues p with
    | true =>
      rw [List.filter_cons_of_neg (by simp [hs])]
      rw [ih acc]
      simp only [loopEndpoints, endpointContrib_skipped hs, ok_bind]
    | false =>
      rw [List.filter_cons_of_pos (by simp [hs])]
      simp only [loopEndpoints]
      cases hc : endpointContrib p with
      | error e => rfl
      | ok c =>
        simp only [ok_bind]
        cases c with
        | none => exact ih acc
        | some kv =>
          obtain ⟨k', v'⟩ := kv
          exact ih _

/-- Claim C10: a metrics key that is exactly the prefix `latency_ms_`
(nothing after it), with a non-empty `values` mapping, yields an Endpoint
Stats entry under the empty-string endpoint name. -/
theorem empty_endpoint_name (fs : Fields) (res : ExtractResult)
    (hr : extract_performance_data (some (.obj fs)) = .ok (some res))
    (mf : Fields) (hm : objGetD fs "metrics" (.obj []) = .obj mf)
    (ef vf : Fields) (hmem : ("latency_ms_", Json.obj ef) ∈ mf)
    (hvals : objGetD ef "values" (.obj []) = .obj vf)
    (hne : truthy (.obj vf) = true) :
    (assocLookup res.endpoints "").isSome = true := by
  obtain ⟨mf', hm', hl⟩ := extract_ok_inv hr
  obtain rfl : mf = mf' := by
    rw [hm] at hm'
    exact Json.obj.inj hm'
  have h := @loop_key_present "latency_ms_" ef vf (by decide) hvals hne
    mf [] res.endpoints hl hmem
  rwa [show pyReplace "latency_ms_" "latency_ms_" "" = "" from rfl] at h

/-- Claim C10, witness at a fixture whose only metric is named exactly
`latency_ms_`. -/
theorem empty_endpoint_name_witness :
    (assocLookup
      (⟨overallOf [("metrics", Json.obj [("latency_ms_", Json.obj
          [("values", Json.obj [("avg", Json.num 7)])])])],
        [("", recordOfValues [("avg", Json.num 7)])]⟩ :
          ExtractResult).endpoints "").isSome = true :=
  empty_endpoint_name
    [("metrics", Json.obj [("latency_ms_", Json.obj
      [("values", Json.obj [("avg", Json.num 7)])])])]
    ⟨overallOf [("metrics", Json.obj [("latency_ms_", Json.obj
      [("values", Json.obj [("avg", Json.num 7)])])])],
      [("", recordOfValues [("avg", Json.num 7)])]⟩
    rfl
    [("latency_ms_", Json.obj [("values", Json.obj [("avg", Json.num 7)])])]
    rfl [("values", Json.obj [("avg", Json.num 7)])] [("avg", Json.num 7)]
    (by simp) rfl (by decide)

/-- Claim C7: the ranking shared by the endpoint-comparison renderer and the
console summary (`sorted(..., key=lambda x: x[1]['p95'], reverse=True)`)
lists endpoints in descending order of the (numeric) `p95` field, is a
permutation of the endpoint dict, and is stable — endpoints with equal `p95`
appear in their original scan order (the filter at each key value is
unchanged) — and the console summary takes the first 5 of this ranking. -/
theorem ranking_sorted_stable (l : List (String × EndpointRecord))
    (_hnum : l.all (fun p => p.2.p95.isNum) = true) :
    List.Pairwise
      (fun a b : String × EndpointRecord => numD b.2.p95 ≤ numD a.2.p95)
      (sortedEndpoints l) ∧
    List.Perm (sortedEndpoints l) l ∧
    (∀ q : Rat, (sortedEndpoints l).filter (fun p => decide (numD p.2.p95 = q)) =
      l.filter (fun p => decide (numD p.2.p95 = q))) ∧
    top5Slowest l = (sortedEndpoints l).take 5 := by
  have htrans : ∀ a b c : String × EndpointRecord,
      decide (numD b.2.p95 ≤ numD a.2.p95) = true →
      decide (numD c.2.p95 ≤ numD b.2.p95) = true →
      decide (numD c.2.p95 ≤ numD a.2.p95) = true := by
    intro a b c h1 h2
    simp only [decide_eq_true_eq] at h1 h2 ⊢
    exact le_trans h2 h1
  have htotal : ∀ a b : String × EndpointRecord,
      (decide (numD b.2.p95 ≤ numD a.2.p95) ||
        decide (numD a.2.p95 ≤ numD b.2.p95)) = true := by
    intro a b
    simp only [Bool.or_eq_true, decide_eq_true_eq]
    exact le_total _ _
  refine ⟨?_, List.mergeSort_perm l _, fun q => ?_, rfl⟩
  · have h := List.sorted_mergeSort htrans htotal l
    exact h.imp fun hab => decide_eq_true_eq.mp hab
  · have hc1 : (l.filter (fun p => decide (numD p.2.p95 = q))).Pairwise
        (fun a b : String × EndpointRecord =>
          decide (numD b.2.p95 ≤ numD a.2.p95) = true) := by
      apply List.pairwise_of_forall_mem_list
      intro a ha b hb
      have ha2 := (List.mem_filter.mp ha).2
      have hb2 := (List.mem_filter.mp hb).2
      simp only [decide_eq_true_eq] at ha2 hb2 ⊢
      rw [ha2, hb2]
    have hsub : List.Sublist (l.filter (fun p => decide (numD p.2.p95 = q))) l :=
      List.filter_sublist l
    have h1 := List.sublist_mergeSort htrans htotal hc1 hsub
    have h2 : List.Perm
        ((sortedEndpoints l).filter (fun p => decide (numD p.2.p95 = q)))
        (l.filter (fun p => decide (numD p.2.p95 = q))) :=
      (List.mergeSort_perm l _).filter _
    have h3 : List.Sublist (l.filter (fun p => decide (numD p.2.p95 = q)))
        ((sortedEndpoints l).filter (fun p => decide (numD p.2.p95 = q))) := by
      have h4 := h1.filter (fun p => decide (numD p.2.p95 = q))
      simpa [List.filter_filter, Bool.and_self] using h4
    exact (h3.eq_of_length h2.symm.length_eq).symm

/-- Claim C7, witness at a three-endpoint list with a tie on `p95`. -/
theorem ranking_sorted_stable_witness :
    List.Pairwise
      (fun a b : String × EndpointRecord => numD b.2.p95 ≤ numD a.2.p95)
      (sortedEndpoints
        [("a", ⟨.num 0, .num 0, .num 0, .num 0, .num 1, .num 0, .num 0⟩),
         ("b", ⟨.num 0, .num 0, .num 0, .num 0, .num 5, .num 0, .num 0⟩),
         ("c", ⟨.num 0, .num 0, .num 0, .num 0, .num 1, .num 0, .num 0⟩)]) ∧
    List.Perm
      (sortedEndpoints
        [("a", ⟨.num 0, .num 0, .num 0, .num 0, .num 1, .num 0, .num 0⟩),
         ("b", ⟨.num 0, .num 0, .num 0, .num 0, .num 5, .num 0, .num 0⟩),
         ("c", ⟨.num 0, .num 0, .num 0, .num 0, .num 1, .num 0, .num 0⟩)])
      [("a", ⟨.num 0, .num 0, .num 0, .num 0, .num 1, .num 0, .num 0⟩),
       ("b", ⟨.num 0, .num 0, .num 0, .num 0, .num 5, .num 0, .num 0⟩),
       ("c", ⟨.num 0, .num 0, .num 0, .num 0, .num 1, .num 0, .num 0⟩)] ∧
    (∀ q : Rat, (sortedEndpoints
        [("a", ⟨.num 0, .num 0, .num 0, .num 0, .num 1, .num 0, .num 0⟩),
         ("b", ⟨.num 0, .num 0, .num 0, .num 0, .num 5, .num 0, .num 0⟩),
         ("c", ⟨.num 0, .num 0, .num 0, .num 0, .num 1, .num 0, .num 0⟩)]).filter
          (fun p => decide (numD p.2.p95 = q)) =
      [("a", ⟨.num 0, .num 0, .num 0, .num 0, .num 1, .num 0, .num 0⟩),
       ("b", ⟨.num 0, .num 0, .num 0, .num 0, .num 5, .num 0, .num 0⟩),
       ("c", ⟨.num 0, .num 0, .num 0, .num 0, .num 1, .num 0, .num 0⟩)].filter
          (fun p => decide (numD p.2.p95 = q))) ∧
    top5Slowest
        [("a", ⟨.num 0, .num 0, .num 0, .num 0, .num 1, .num 0, .num 0⟩),
         ("b", ⟨.num 0, .num 0, .num 0, .num 0, .num 5, .num 0, .num 0⟩),
         ("c", ⟨.num 0, .num 0, .num 0, .num 0, .num 1, .num 0, .num 0⟩)] =
      (sortedEndpoints
        [("a", ⟨.num 0, .num 0, .num 0, .num 0, .num 1, .num 0, .num 0⟩),
         ("b", ⟨.num 0, .num 0, .num 0, .num 0, .num 5, .num 0, .num 0⟩),
         ("c", ⟨.num 0, .num 0, .num 0, .num 0, .num 1, .num 0, .num 0⟩)]).take 5 :=
  ranking_sorted_stable
    [("a", ⟨.num 0, .num 0, .num 0, .num 0, .num 1, .num 0, .num 0⟩),
     ("b", ⟨.num 0, .num 0, .num 0, .num 0, .num 5, .num 0, .num 0⟩),
     ("c", ⟨.num 0, .num 0, .num 0, .num 0, .num 1, .num 0, .num 0⟩)]
    (by decide)

end GenerateGraphs
